import Mathlib

/-!
Verification development for the sales-mcp prospect research and qualification
engine (src/tools/research.js in the repository; provided as src/unnamed/part_000).

The JavaScript source is shallowly embedded below. Conventions:
* JavaScript strings become `String`; `null`/`undefined` string values become
  `Option String`, and JavaScript truthiness of such a value (`if (s)`) is
  `jsTruthy` (false for `null`/`undefined`/`""`).
* Network effects are turned into explicit function parameters: HTTP probing
  becomes `probe : String → Option Nat` (none = network error, some s = HTTP
  status), `Date.now()` becomes a `now : Int` parameter (epoch milliseconds),
  and `researchCompany` inside `batchResearch` becomes
  `research : Company → Except String α` (error = thrown exception).
* `Array.prototype.sort` (stable since ES2019) with a key-difference comparator
  is embedded as Mathlib's stable `List.insertionSort` on the corresponding
  non-strict key relation.
* `Math.round` in contact quality scoring is exact: for every integer
  `s ≤ 100`, IEEE-754 double evaluation of `Math.round(min(s,100)/100*100)`
  gives back `min(s,100)`.  The fit scorer's `Math.round((score/120)*100)`
  is instead modelled bit-exactly as `jsFloatPercent`: two correctly rounded
  IEEE-754 double operations (round to nearest, ties to even) followed by
  the ECMA-262 `Math.round` of the resulting double value (nearest integer,
  ties toward positive infinity).  On the reachable scores 0..120 this
  differs from exact rational half-up rounding (`jsRoundDiv`) at exactly one
  point: score 69, where the double product is just below 57.5, so the
  program yields 57 while exact rounding gives 58.
-/

namespace SalesMcp

/-- Lower-casing as used by `String.prototype.toLowerCase` (ASCII-faithful,
defined characterwise so that it computes by kernel reduction). -/
def jsLower (s : String) : String := String.mk (s.data.map Char.toLower)

/-- Whitespace class of the JavaScript regex escape `\s` (the members that can
occur in the strings handled here; ASCII whitespace plus NBSP and BOM). -/
def isJsSpace (c : Char) : Bool :=
  c = ' ' || c = '\t' || c = '\n' || c = '\r' || c = '\x0b' || c = '\x0c' ||
  c = '\u00A0' || c = '\uFEFF'

/-- JavaScript truthiness of a nullable string: `null`, `undefined` and `""`
are falsy, every other string is truthy. -/
def jsTruthy (s : Option String) : Bool :=
  match s with
  | none => false
  | some t => !t.data.isEmpty

/-- Does `hay` contain `needle` as a contiguous subsequence?  This is
`String.prototype.includes` on the underlying character lists. -/
def containsSeq (hay needle : List Char) : Bool :=
  match hay with
  | [] => needle.isEmpty
  | _ :: t => needle.isPrefixOf hay || containsSeq t needle

/-- `String.prototype.includes`. -/
def jsIncludes (s pat : String) : Bool := containsSeq s.data pat.data

/-- `String.prototype.split(sep)` for a one-character separator, on character
lists (`"".split(sep)` is `[""]`; empty segments are kept). -/
def splitOnChar (sep : Char) : List Char → List (List Char)
  | [] => [[]]
  | c :: t =>
    let r := splitOnChar sep t
    if c = sep then [] :: r
    else
      match r with
      | h :: rest => (c :: h) :: rest
      | [] => [[c]]

/-- Fuel-driven core of `countOcc`.  The fuel (initially the haystack length)
only bounds recursion depth; it never cuts a real computation short because
every step consumes at least one haystack character. -/
def countOccAux : Nat → List Char → List Char → Nat
  | 0, _, _ => 0
  | _ + 1, _, [] => 0
  | fuel + 1, needle, c :: t =>
    if needle.isPrefixOf (c :: t) then 1 + countOccAux fuel needle ((c :: t).drop needle.length)
    else countOccAux fuel needle t

/-- Number of non-overlapping, left-to-right occurrences of `needle` in `hay`:
the match count of `new RegExp(needle, 'g')` for a metacharacter-free
`needle` (all platform keywords are metacharacter-free and nonempty). -/
def countOcc (needle hay : List Char) : Nat := countOccAux hay.length needle hay

/-- Case-insensitive occurrence count: the match count of
`new RegExp(pat, 'gi')` for a metacharacter-free pattern. -/
def countOccCI (hay pat : String) : Nat := countOcc (jsLower pat).data (jsLower hay).data

/-- Exact rational half-up rounding of `a / b` for natural `a` and positive
natural `b`: the value `Math.round(a/b)` would have under exact arithmetic. -/
def jsRoundDiv (a b : Nat) : Nat := (2 * a + b) / (2 * b)

/-- Round `a / b` (with `0 < b`) to the nearest integer, ties to even: the
IEEE-754 mantissa rounding of the binary64 format. -/
def rneDiv (a b : Nat) : Nat :=
  let q := a / b
  let r := a % b
  if 2 * r < b then q
  else if b < 2 * r then q + 1
  else if q % 2 = 0 then q else q + 1

/-- Double the numerator of `a / b` until the quotient reaches the binade
`[2^52, ·)`; returns the scaled numerator and the number of doublings.  The
fuel (200 everywhere below) strictly exceeds the doublings any value arising
here can need. -/
def scaleUp : Nat → Nat → Nat → Nat × Nat
  | 0, a, _ => (a, 0)
  | fuel + 1, a, b =>
    if 2 ^ 52 * b ≤ a then (a, 0)
    else
      let r := scaleUp fuel (2 * a) b
      (r.1, r.2 + 1)

/-- Double the denominator of `a / b` until the quotient drops below `2^53`;
returns the scaled denominator and the number of doublings. -/
def scaleDn : Nat → Nat → Nat → Nat × Nat
  | 0, _, b => (b, 0)
  | fuel + 1, a, b =>
    if a < 2 ^ 53 * b then (b, 0)
    else
      let r := scaleDn fuel a (2 * b)
      (r.1, r.2 + 1)

/-- The binary64 (IEEE-754 double) value nearest to the positive rational
`a / b`, as an exact fraction `(numerator, denominator)`: scale into the
mantissa binade `[2^52, 2^53)`, round to nearest with ties to even, and undo
the scaling.  (Exponent overflow and underflow cannot occur for the small
values used here.) -/
def nearestDoubleFrac (a b : Nat) : Nat × Nat :=
  if a = 0 then (0, 1)
  else
    let su := scaleUp 200 a b
    let sd := scaleDn 200 su.1 b
    let m := rneDiv su.1 sd.1
    (m * 2 ^ sd.2, 2 ^ su.2)

/-- Bit-exact model of the JavaScript expression
`Math.round((score / 120) * 100)` for a natural `score`: the division and
the multiplication are each correctly rounded binary64 operations, and
`Math.round` takes the nearest integer (ties toward positive infinity) of
the exact value of the resulting double. -/
def jsFloatPercent (score : Nat) : Nat :=
  if score = 0 then 0
  else
    let d1 := nearestDoubleFrac score 120
    let d2 := nearestDoubleFrac (100 * d1.1) d1.2
    (2 * d2.1 + d2.2) / (2 * d2.2)

end SalesMcp

namespace SalesMcp

/-! ## Email validation and deliverability (source lines 878-914) -/

/-- Test of the regex `^[^\s@]+@[^\s@]+\.[^\s@]+$`: exactly one `@`; a
nonempty, whitespace-free local part; and a nonempty, whitespace-free domain
part containing a `.` that is neither its first nor its last character. -/
def emailPatternMatch (s : String) : Bool :=
  match splitOnChar '@' s.data with
  | [localPart, domainPart] =>
    !localPart.isEmpty && localPart.all (fun c => !isJsSpace c) &&
    !domainPart.isEmpty && domainPart.all (fun c => !isJsSpace c) &&
    (domainPart.drop 1).dropLast.contains '.'
  | _ => false

/-- `validateEmailFormat(email)`: false for a null/empty email, else the
format regex above. -/
def validateEmailFormat (email : Option String) : Bool :=
  if !jsTruthy email then false
  else emailPatternMatch (email.getD "")

/-- Removal of the first match of `https?:\/\/(www\.)?` (the regex is
unanchored and non-global; greedy, so a `www.` right after the scheme is
included in the match). -/
def stripProtoAux : List Char → List Char
  | [] => []
  | c :: rest =>
    if "https://www.".data.isPrefixOf (c :: rest) then (c :: rest).drop 12
    else if "https://".data.isPrefixOf (c :: rest) then (c :: rest).drop 8
    else if "http://www.".data.isPrefixOf (c :: rest) then (c :: rest).drop 11
    else if "http://".data.isPrefixOf (c :: rest) then (c :: rest).drop 7
    else c :: stripProtoAux rest

/-- `url.replace(/https?:\/\/(www\.)?/, '').split('/')[0]`: the domain part of
a website URL as computed by the source. -/
def urlDomain (url : String) : String :=
  String.mk ((stripProtoAux url.data).takeWhile (fun c => !(c = '/')))

/-- Outcome record of `estimateEmailDeliverability`. -/
structure Deliverability where
  risk : String
  reason : String
deriving DecidableEq

def businessProviders : List String := ["gmail.com", "outlook.com", "hotmail.com", "yahoo.com"]

/-- `estimateEmailDeliverability(email, companyWebsite)` (source lines
891-914). -/
def estimateEmailDeliverability (email : Option String) (companyWebsite : Option String) : Deliverability :=
  if !jsTruthy email || !validateEmailFormat email then
    { risk := "high", reason := "Invalid email format" }
  else
    let emailDomain := String.mk ((splitOnChar '@' (email.getD "").data).getD 1 [])
    let matchesWebsite :=
      match companyWebsite with
      | none => false
      | some w => !w.data.isEmpty && urlDomain w = emailDomain
    if matchesWebsite then { risk := "low", reason := "Email domain matches company website" }
    else if businessProviders.contains emailDomain then { risk := "medium", reason := "Personal email provider" }
    else { risk := "low", reason := "Custom business domain" }

/-! ## Contacts (source lines 740-936) -/

/-- A contact record as produced by the extraction stage, before quality
scoring.  Nullable JavaScript fields are `Option`s; `extractedAt` is the
timestamp in epoch milliseconds. -/
structure Contact where
  name : String
  title : Option String
  email : Option String
  linkedin : Option String
  source : String
  priority : String
  verified : Bool
  note : Option String
  extractedAt : Option Int
deriving DecidableEq

/-- `calculateContactPriorityScore(title)` (source lines 780-795): rank 1-9
from case-insensitive substring tests, in the source's order. -/
def calculateContactPriorityScore (title : Option String) : Nat :=
  match title with
  | none => 9
  | some t =>
    if t.data.isEmpty then 9
    else
      let titleLower := jsLower t
      if jsIncludes titleLower "ceo" then 1
      else if jsIncludes titleLower "founder" then 2
      else if jsIncludes titleLower "cto" then 3
      else if jsIncludes titleLower "cpo" then 4
      else if jsIncludes titleLower "vp" then 5
      else if jsIncludes titleLower "director" then 6
      else if jsIncludes titleLower "head" then 7
      else if jsIncludes titleLower "manager" then 8
      else 9

/-- Result record of `calculateContactQualityScore`.  `maxScore` is optional
because the synthesized placeholder contacts carry a quality-score object
without that key.  `breakdown` is the source's breakdown object as an
association list. -/
structure QualityScore where
  score : Nat
  maxScore : Option Nat
  percentage : Nat
  breakdown : List (String × Nat)
deriving DecidableEq

/-- `calculateContactQualityScore(contact)` (source lines 829-876).
`Date.now()` is the explicit `now` parameter; `daysSinceExtracted <= d`
becomes `now - t <= d * 86400000` (division by the positive constant
86400000 is exact on rationals).  `Math.round(min(score,100)/100*100)`
equals `min score 100` exactly. -/
def calculateContactQualityScore (contact : Contact) (now : Int) : QualityScore :=
  let titleScore := calculateContactPriorityScore contact.title
  let titlePoints : Nat :=
    if titleScore ≤ 2 then 40 else if titleScore ≤ 4 then 35
    else if titleScore ≤ 5 then 25 else if titleScore ≤ 6 then 15 else 5
  let emailPoints : Nat :=
    if jsTruthy contact.email && contact.verified then 25
    else if jsTruthy contact.email then 15 else 0
  let sourcePoints : Nat :=
    if contact.source = "website_team_page" then 20
    else if contact.source = "contact_page" then 15
    else if contact.source = "text_extraction" then 10 else 5
  let linkedinPoints : Nat := if jsTruthy contact.linkedin then 10 else 0
  let recencyPoints : Nat :=
    match contact.extractedAt with
    | none => 0
    | some t =>
      if now - t ≤ 86400000 then 5
      else if now - t ≤ 7 * 86400000 then 3
      else if now - t ≤ 30 * 86400000 then 1 else 0
  let score := titlePoints + emailPoints + sourcePoints + linkedinPoints + recencyPoints
  { score := min score 100
  , maxScore := some 100
  , percentage := min score 100
  , breakdown :=
      [ ("title_priority", min 40 titlePoints)
      , ("email_verification", emailPoints)
      , ("source_quality", sourcePoints)
      , ("linkedin_profile", linkedinPoints)
      , ("recency", if contact.extractedAt.isSome then 5 else 0) ] }

/-- Validation record attached by `scoreAndVerifyContacts`. -/
structure EmailValidation where
  isValid : Bool
  deliverability : Deliverability
deriving DecidableEq

/-- A contact after `scoreAndVerifyContacts`: the JavaScript object spread
`{...contact, qualityScore, emailValidation, recommendedForOutreach,
outreachRisk}` keeps every original field (`contact`) and adds the four new
ones. -/
structure ScoredContact where
  contact : Contact
  qualityScore : QualityScore
  emailValidation : EmailValidation
  recommendedForOutreach : Bool
  outreachRisk : String
deriving DecidableEq

/-- The body of the `contacts.map` in `scoreAndVerifyContacts` (source lines
920-934). -/
def augmentContact (companyWebsite : Option String) (now : Int) (contact : Contact) : ScoredContact :=
  let qualityScore := calculateContactQualityScore contact now
  let emailValid := validateEmailFormat contact.email
  let deliverability := estimateEmailDeliverability contact.email companyWebsite
  { contact := contact
  , qualityScore := qualityScore
  , emailValidation := { isValid := emailValid, deliverability := deliverability }
  , recommendedForOutreach := decide (60 ≤ qualityScore.percentage) && emailValid
  , outreachRisk := deliverability.risk }

/-- `scoreAndVerifyContacts(contacts, companyWebsite)` (source lines 919-936):
map then stable sort descending by raw quality score (the comparator
`(a, b) => b.qualityScore.score - a.qualityScore.score`). -/
def scoreAndVerifyContacts (contacts : List Contact) (companyWebsite : Option String) (now : Int) : List ScoredContact :=
  List.insertionSort (fun a b => b.qualityScore.score ≤ a.qualityScore.score)
    (contacts.map (augmentContact companyWebsite now))

/-- `prioritizeContacts(contacts)` (source lines 742-762): stable sort
ascending by title-priority rank, then keep the top 5. -/
def prioritizeContacts (contacts : List Contact) : List Contact :=
  (List.insertionSort
    (fun a b => calculateContactPriorityScore a.title ≤ calculateContactPriorityScore b.title)
    contacts).take 5

end SalesMcp

namespace SalesMcp

/-! ## findKeyContacts post-processing (source lines 470-513) -/

/-- First placeholder contact pushed by `findKeyContacts` when no contacts
were extracted (source lines 480-492). -/
def researchNeededCEO : ScoredContact :=
  { contact :=
      { name := "CEO/Founder"
      , title := some "Chief Executive Officer"
      , email := none
      , linkedin := none
      , source := "research_needed"
      , priority := "critical"
      , verified := false
      , note := some "Research CEO contact via LinkedIn or company directory"
      , extractedAt := none }
  , qualityScore := { score := 40, maxScore := none, percentage := 40, breakdown := [] }
  , emailValidation :=
      { isValid := false, deliverability := { risk := "high", reason := "No email found" } }
  , recommendedForOutreach := false
  , outreachRisk := "high" }

/-- Second placeholder contact pushed by `findKeyContacts` (source lines
494-506). -/
def researchNeededCTO : ScoredContact :=
  { contact :=
      { name := "CTO/VP Engineering"
      , title := some "Chief Technology Officer"
      , email := none
      , linkedin := none
      , source := "research_needed"
      , priority := "high"
      , verified := false
      , note := some "Research technical decision maker contact"
      , extractedAt := none }
  , qualityScore := { score := 35, maxScore := none, percentage := 35, breakdown := [] }
  , emailValidation :=
      { isValid := false, deliverability := { risk := "high", reason := "No email found" } }
  , recommendedForOutreach := false
  , outreachRisk := "high" }

/-- The pure tail of `findKeyContacts` (source lines 470-513), applied to the
raw contacts collected from the network stage: prioritize, score and verify,
and synthesize the two placeholder contacts when the scored list is empty
(`highQualityContacts.length === 0 && scoredContacts.length === 0`; the first
conjunct is implied by the second since `highQualityContacts` filters
`scoredContacts`, but both tests are kept as in the source). -/
def finalizeContacts (contacts : List Contact) (websiteUrl : Option String) (now : Int) : List ScoredContact :=
  let scoredContacts := scoreAndVerifyContacts (prioritizeContacts contacts) websiteUrl now
  let highQualityContacts := scoredContacts.filter (fun c => 60 ≤ c.qualityScore.percentage)
  if highQualityContacts.length = 0 && scoredContacts.length = 0 then
    scoredContacts ++ [researchNeededCEO, researchNeededCTO]
  else scoredContacts

/-! ## Contact email resolution inside extractContactFromElement
(source lines 600-646) -/

/-- The email-resolution cascade of `extractContactFromElement` (source lines
600-630), with the element reads as parameters: `mailtoEmail` is the address
of the first `mailto:` link in the element (if any), `textEmail` the first
email-regex match in the element text (if any), `name` the extracted name
(`""` when none was found), `websiteUrl` the resolved company website.  When
neither source yields an address and a two-part name is available, an address
`firstname.lastname@domain` is synthesized from the website's domain. -/
def resolveContactEmail (mailtoEmail textEmail : Option String) (name : String) (websiteUrl : Option String) : Option String :=
  match mailtoEmail with
  | some e => some e
  | none =>
    match textEmail with
    | some e => some e
    | none =>
      if name.data.isEmpty then none
      else
        let kept := (jsLower name).data.filter (fun c => ('a' ≤ c && c ≤ 'z') || isJsSpace c)
        let cleanNameForEmail := (splitOnChar ' ' kept).filter (fun part => 1 < part.length)
        match cleanNameForEmail, websiteUrl with
        | p0 :: p1 :: rest, some w =>
          let domain := urlDomain w
          if domain.data.isEmpty then none
          else some (String.mk p0 ++ "." ++ String.mk ((p1 :: rest).getLast (by simp)) ++ "@" ++ domain)
        | _, _ => none

/-- The `verified` field written by `extractContactFromElement` (source line
643): `verified: !!email`. -/
def extractedVerified (email : Option String) : Bool := email.isSome

end SalesMcp

namespace SalesMcp

/-! ## Content analyzer output (source lines 146-361) -/

/-- Platform classification record returned by `detectPlatformType`. -/
structure PlatformType where
  type : String
  confidence : Nat
  keywords_found : Nat
deriving DecidableEq

/-- Business indicators record of `extractBusinessIndicators`. -/
structure BusinessIndicators where
  has_customers : Bool
  customer_count : Option String
  has_funding : Bool
  has_team_page : Bool
  has_careers : Bool
  has_press : Bool
  has_case_studies : Bool
  growth_indicators : List String
deriving DecidableEq

/-- Derived booleans of the analyzer's `content_analysis` object. -/
structure ContentAnalysis where
  has_api : Bool
  has_developers : Bool
  has_enterprise : Bool
  has_pricing : Bool
deriving DecidableEq

/-- Pricing record of `extractPricingInfo`. -/
structure PricingInfo where
  has_pricing : Bool
  pricing_model : Option String
  price_indicators : List String
deriving DecidableEq

/-- Output of `analyzeCompanyWebsite` as consumed by the fit scorer.  Every
field is optional because a failed or skipped analysis yields the empty
object `{}`.  `website` is listed because `scoreCompanyFit` reads
`websiteAnalysis.website`, although `analyzeCompanyWebsite` never sets it
(the tech-stack field is never read by the scorer and is omitted). -/
structure WebsiteAnalysis where
  title : Option String
  description : Option String
  website : Option String
  platform_type : Option PlatformType
  business_indicators : Option BusinessIndicators
  pricing_info : Option PricingInfo
  content_analysis : Option ContentAnalysis
deriving DecidableEq

/-! ## Platform type detection (source lines 211-250) -/

/-- The fixed category → keyword-list table of `detectPlatformType`, in the
source's object-key order. -/
def platformKeywordTable : List (String × List String) :=
  [ ("no-code", ["no-code", "low-code", "visual", "drag-and-drop", "app builder", "website builder"])
  , ("crm", ["crm", "customer relationship", "sales pipeline", "lead management", "sales automation",
             "contact management", "deal tracking", "sales funnel", "customer database", "sales tracking",
             "prospect management", "sales process", "customer data", "sales performance", "revenue tracking"])
  , ("project-management", ["project management", "task management", "team collaboration", "workflow"])
  , ("ecommerce", ["ecommerce", "e-commerce", "online store", "shopping cart", "payment processing"])
  , ("automation", ["automation", "workflow", "zapier", "integration", "business process"])
  , ("analytics", ["analytics", "data visualization", "reporting", "business intelligence"])
  , ("communication", ["communication", "messaging", "chat", "video conferencing", "collaboration"]) ]

/-- `content + ' ' + title + ' ' + description` of `detectPlatformType`. -/
def platformAllText (content title description : String) : String :=
  content ++ " " ++ title ++ " " ++ description

/-- One category's total keyword occurrence count (the `keywords.reduce`
in `detectPlatformType`). -/
def keywordScore (allText : String) (kws : List String) : Nat :=
  kws.foldl (fun sum kw => sum + countOccCI allText kw) 0

/-- Loop body of `detectPlatformType`: update `(detectedType, maxScore)` when
a category's score is strictly greater. -/
def detectStep (allText : String) (acc : String × Nat) (p : String × List String) : String × Nat :=
  let score := keywordScore allText p.2
  if acc.2 < score then (p.1, score) else acc

/-- `detectPlatformType(content, title, description)` (source lines 211-250). -/
def detectPlatformType (content title description : String) : PlatformType :=
  let allText := platformAllText content title description
  let r := platformKeywordTable.foldl (detectStep allText) ("unknown", 0)
  { type := r.1, confidence := r.2, keywords_found := r.2 }

/-! ## Fit scorer (source lines 941-1028) -/

/-- Static platform recognition table of `scoreCompanyFit`, in source order. -/
def majorPlatforms : List (String × Nat) :=
  [ ("bubble", 20), ("webflow", 20), ("airtable", 18), ("zapier", 18), ("notion", 15)
  , ("outsystems", 18), ("adalo", 15), ("glide", 12), ("retool", 18), ("monday.com", 15) ]

/-- Static per-category platform-type point table of `scoreCompanyFit`. -/
def platformTypeScores : List (String × Nat) :=
  [ ("no-code", 30), ("crm", 25), ("project-management", 20)
  , ("ecommerce", 20), ("automation", 25), ("analytics", 15) ]

/-- The platform-recognition boost (first table entry whose name occurs in
the lower-cased title or website, else 0). -/
def recognitionBoost (wa : WebsiteAnalysis) : Nat :=
  let companyName := jsLower (wa.title.getD "")
  let websiteUrl := jsLower (wa.website.getD "")
  ((majorPlatforms.find? (fun p => jsIncludes companyName p.1 || jsIncludes websiteUrl p.1)).map Prod.snd).getD 0

/-- The platform-type contribution: only present when the analysis has a
`platform_type`; table lookup with default 5 (own-property lookup suffices
because the analyzer only produces the eight known type tags). -/
def platformTypeScore (wa : WebsiteAnalysis) : Option Nat :=
  wa.platform_type.map (fun pt =>
    ((platformTypeScores.find? (fun q => q.1 = pt.type)).map Prod.snd).getD 5)

/-- The uncapped business-indicator sum. -/
def businessIndicatorScore (wa : WebsiteAnalysis) : Nat :=
  match wa.business_indicators with
  | none => 0
  | some bi =>
    (if bi.has_customers then 10 else 0) + (if bi.has_funding then 15 else 0) +
    (if bi.has_careers then 10 else 0) + (if bi.has_case_studies then 5 else 0)

/-- The uncapped technical-fit sum. -/
def technicalFitScore (wa : WebsiteAnalysis) : Nat :=
  match wa.content_analysis with
  | none => 0
  | some ca =>
    (if ca.has_api then 15 else 0) + (if ca.has_developers then 10 else 0) +
    (if ca.has_enterprise then 5 else 0)

/-- The uncapped pricing-model sum. -/
def pricingModelScore (wa : WebsiteAnalysis) : Nat :=
  match wa.pricing_info with
  | none => 0
  | some pinfo =>
    (if pinfo.has_pricing then 10 else 0) +
    (if pinfo.pricing_model = some "subscription" then 5 else 0) +
    (if pinfo.price_indicators.contains "enterprise_pricing" then 10 else 0)

/-- The growth-indicator contribution `min(tags.length * 3 || 0, 10)` (the
`|| 0` absorbs the `undefined * 3 = NaN` of a missing indicator object). -/
def growthIndicatorScore (wa : WebsiteAnalysis) : Nat :=
  match wa.business_indicators with
  | none => 0
  | some bi => min (bi.growth_indicators.length * 3) 10

/-- The breakdown object of a `ScoringResult`; `platform_type` is optional
because the source only sets that key when the analysis has a platform
type. -/
structure Breakdown where
  platform_recognition : Nat
  platform_type : Option Nat
  business_indicators : Nat
  technical_fit : Nat
  pricing_model : Nat
  growth_indicators : Nat
deriving DecidableEq

/-- Result record of `scoreCompanyFit`. -/
structure ScoringResult where
  total_score : Nat
  breakdown : Breakdown
  max_possible : Nat
  percentage : Nat
deriving DecidableEq

/-- `scoreCompanyFit(websiteAnalysis, companyIntel)` (source lines 941-1028;
`companyIntel` is never read).  Each factor is capped as in the source; the
total is their plain sum; `percentage = Math.round((score / 120) * 100)`
evaluated in IEEE-754 doubles (`jsFloatPercent`). -/
def scoreCompanyFit (wa : WebsiteAnalysis) : ScoringResult :=
  let total := recognitionBoost wa + (platformTypeScore wa).getD 0 +
    min (businessIndicatorScore wa) 25 + min (technicalFitScore wa) 20 +
    min (pricingModelScore wa) 15 + growthIndicatorScore wa
  { total_score := total
  , breakdown :=
      { platform_recognition := recognitionBoost wa
      , platform_type := platformTypeScore wa
      , business_indicators := min (businessIndicatorScore wa) 25
      , technical_fit := min (technicalFitScore wa) 20
      , pricing_model := min (pricingModelScore wa) 15
      , growth_indicators := growthIndicatorScore wa }
  , max_possible := 120
  , percentage := jsFloatPercent total }

/-- The recommendation ternary of `researchCompany` (source lines 49-51):
`total_score >= 80 ? HOT : >= 60 ? WARM : >= 40 ? COLD : NOT_QUALIFIED`. -/
def recommendationFor (total_score : Nat) : String :=
  if 80 ≤ total_score then "HOT_PROSPECT"
  else if 60 ≤ total_score then "WARM_PROSPECT"
  else if 40 ≤ total_score then "COLD_PROSPECT"
  else "NOT_QUALIFIED"

end SalesMcp

namespace SalesMcp

/-! ## Website resolver (source lines 66-141) -/

/-- The static alias table `knownDomains`, in the source's insertion order. -/
def knownDomains : List (String × String) :=
  [ ("monday.com", "https://monday.com"), ("airtable", "https://airtable.com")
  , ("notion", "https://notion.so"), ("zapier", "https://zapier.com")
  , ("bubble", "https://bubble.io"), ("webflow", "https://webflow.com")
  , ("retool", "https://retool.com"), ("hubspot", "https://hubspot.com")
  , ("pipedrive", "https://pipedrive.com"), ("salesforce", "https://salesforce.com")
  , ("zoho crm", "https://zoho.com/crm"), ("zoho", "https://zoho.com/crm")
  , ("freshworks", "https://freshworks.com"), ("insightly", "https://insightly.com")
  , ("activecampaign", "https://activecampaign.com"), ("copper", "https://copper.com")
  , ("sugarcrm", "https://sugarcrm.com"), ("zendesk sell", "https://zendesk.com/sell")
  , ("asana", "https://asana.com"), ("clickup", "https://clickup.com")
  , ("shopify", "https://shopify.com"), ("woocommerce", "https://woocommerce.com") ]

/-- `companyName.toLowerCase().replace(/[^a-z0-9]/g, '')` (the second
`.replace(/\s+/g, '')` is a no-op after the first). -/
def normalizeDomainToken (companyName : String) : String :=
  String.mk ((jsLower companyName).data.filter
    (fun c => ('a' ≤ c && c ≤ 'z') || ('0' ≤ c && c ≤ '9')))

/-- The four candidate URLs probed by `findCompanyWebsite`, in order. -/
def possibleDomains (companyName : String) : List String :=
  let domainName := normalizeDomainToken companyName
  [ "https://" ++ domainName ++ ".com"
  , "https://www." ++ domainName ++ ".com"
  , "https://" ++ domainName ++ ".io"
  , "https://www." ++ domainName ++ ".io" ]

/-- The probing loop of `findCompanyWebsite` (source lines 115-132).  `probe`
is the HTTP GET: `none` for a network error or timeout, `some s` for a
response with status `s`.  Because the request uses
`validateStatus: status => status < 400`, a status of 400 or more surfaces as
an axios error and is caught (continue); a status below 400 reaches the
`response.status === 200` test, which returns the domain only on exactly 200
and otherwise falls through to the next candidate. -/
def probeLoop (probe : String → Option Nat) : List String → Option String
  | [] => none
  | d :: rest =>
    match probe d with
    | some status =>
      if status < 400 then (if status = 200 then some d else probeLoop probe rest)
      else probeLoop probe rest
    | none => probeLoop probe rest

/-- `findCompanyWebsite(companyName)` (source lines 66-141): first a
case-insensitive substring match against the alias table, else the domain
probes; `null` when nothing succeeds (the function never throws). -/
def findCompanyWebsite (probe : String → Option Nat) (companyName : String) : Option String :=
  match knownDomains.find? (fun kv => jsIncludes (jsLower companyName) kv.1) with
  | some kv => some kv.2
  | none => probeLoop probe (possibleDomains companyName)

/-! ## Batch research (source lines 1091-1133) -/

/-- Input element of `batchResearch`. -/
structure Company where
  name : String
  website : Option String
deriving DecidableEq

/-- One element of the batch result array: either a successful research
record (spread together with its `input`) or the per-company error record
`{input, error, recommendation: 'RESEARCH_FAILED'}`. -/
inductive BatchEntry (α : Type) where
  | success (input : Company) (result : α)
  | failure (input : Company) (error : String)
deriving DecidableEq

/-- The `input` field of a batch entry. -/
def entryInput : BatchEntry α → Company
  | .success c _ => c
  | .failure c _ => c

/-- The sort key `a.scoring?.total_score || 0`: a failure record has no
scoring, so it sorts as 0 (as does a success whose total score is 0). -/
def entryScore (score : α → Nat) : BatchEntry α → Nat
  | .success _ r => score r
  | .failure _ _ => 0

/-- The per-company try/catch in `batchResearch`'s `batch.map`:
`researchCompany` (abstracted as `research`) either returns a record or
throws, and a throw is converted to an error record. -/
def researchStep (research : Company → Except String α) (c : Company) : BatchEntry α :=
  match research c with
  | .ok r => .success c r
  | .error e => .failure c e

/-- The chunking loop `for (i = 0; i < companies.length; i += maxConcurrent)`
with `Promise.all` joins (which preserve order) and `results.push(...)`.
Structured on explicit fuel (initially the list length) so that it computes
by reduction; for `maxConcurrent = 0` the source loops forever, and every
theorem below assumes `0 < maxConcurrent` (the source default is 3).  The
inter-chunk delay has no effect on the result value and is not modelled. -/
def processChunksAux (research : Company → Except String α) (maxConcurrent : Nat) :
    Nat → List Company → List (BatchEntry α)
  | _, [] => []
  | 0, _ :: _ => []
  | fuel + 1, c :: rest =>
    (((c :: rest).take maxConcurrent).map (researchStep research)) ++
      processChunksAux research maxConcurrent fuel ((c :: rest).drop maxConcurrent)

/-- `batchResearch(companies, {delay, maxConcurrent})` (source lines
1091-1133): research in chunks, then stable sort descending by
`scoring?.total_score || 0`. -/
def batchResearch (research : Company → Except String α) (score : α → Nat)
    (maxConcurrent : Nat) (companies : List Company) : List (BatchEntry α) :=
  List.insertionSort (fun a b => entryScore score b ≤ entryScore score a)
    (processChunksAux research maxConcurrent companies.length companies)

end SalesMcp

namespace SalesMcp

/-! ## C1: recommendation tier thresholds -/

/-- C1: the recommendation tier computed by `researchCompany` is a function
of `total_score` alone, with thresholds evaluated in descending order:
HOT_PROSPECT iff `total_score ≥ 80`, WARM_PROSPECT iff `60 ≤ total_score
< 80`, COLD_PROSPECT iff `40 ≤ total_score < 60`, NOT_QUALIFIED iff
`total_score < 40`; a score exactly on a boundary takes the higher tier. -/
theorem recommendation_tier_spec (s : Nat) :
    (recommendationFor s = "HOT_PROSPECT" ↔ 80 ≤ s) ∧
    (recommendationFor s = "WARM_PROSPECT" ↔ 60 ≤ s ∧ s < 80) ∧
    (recommendationFor s = "COLD_PROSPECT" ↔ 40 ≤ s ∧ s < 60) ∧
    (recommendationFor s = "NOT_QUALIFIED" ↔ s < 40) := by
  unfold recommendationFor
  split_ifs with h1 h2 h3 <;>
    refine ⟨?_, ?_, ?_, ?_⟩ <;>
    first
      | exact iff_of_true rfl (by omega)
      | exact iff_of_false (by decide) (by omega)

/-! ## C6: synthesized emails and the `verified` flag -/

end SalesMcp

namespace SalesMcp

/-- C6 evidence: for an element with name `Jane Doe`, no `mailto:` link, no
email pattern in its text, and resolved website `https://acme.com`, the email
cascade synthesizes `jane.doe@acme.com`, and the contact record's
`verified: !!email` field (source line 643) is then `true` — the synthesized,
speculative address is marked verified, contradicting the specification's
`never marked verified`. -/
theorem synthesized_email_marked_verified :
    resolveContactEmail none none "Jane Doe" (some "https://acme.com") = some "jane.doe@acme.com" ∧
    extractedVerified (resolveContactEmail none none "Jane Doe" (some "https://acme.com")) = true := by
  decide

end SalesMcp

namespace SalesMcp

/-! ## C8: website resolver probing -/

/-- The probe loop returns exactly the first candidate whose probe yields
HTTP status 200; every other outcome (error, status ≥ 400, and also any
accepted status other than 200) moves on to the next candidate. -/
theorem probeLoop_eq_find (probe : String → Option Nat) (l : List String) :
    probeLoop probe l = l.find? (fun d => probe d = some 200) := by
  induction l with
  | nil => rfl
  | cons d rest ih =>
    unfold probeLoop
    rcases h : probe d with _ | s
    · simp [List.find?, h, ih]
    · by_cases h200 : s = 200
      · subst h200
        simp [List.find?, h]
      · have : ¬(some s = some 200) := by simp [h200]
        by_cases h400 : s < 400 <;> simp [List.find?, h, h400, h200, ih]

/-- C8 (amended): when the company name matches no alias-table entry, the
resolver probes the four candidate domains `{token}.com`, `www.{token}.com`,
`{token}.io`, `www.{token}.io` in that fixed order and returns the first one
whose probe yields HTTP status exactly 200; candidates that error out, return
status ≥ 400, or return any other status below 400 are skipped, and if no
candidate yields 200 the resolver returns null (it never throws). -/
theorem findCompanyWebsite_spec (probe : String → Option Nat) (companyName : String)
    (hAlias : knownDomains.find? (fun kv => jsIncludes (jsLower companyName) kv.1) = none) :
    findCompanyWebsite probe companyName =
      (possibleDomains companyName).find? (fun d => probe d = some 200) ∧
    ((∀ d ∈ possibleDomains companyName, probe d ≠ some 200) →
      findCompanyWebsite probe companyName = none) := by
  constructor
  · unfold findCompanyWebsite
    rw [hAlias]
    exact probeLoop_eq_find probe (possibleDomains companyName)
  · intro hall
    unfold findCompanyWebsite
    rw [hAlias, probeLoop_eq_find]
    apply List.find?_eq_none.mpr
    intro d hd
    simpa using hall d hd

/-- C8 witness: for the (alias-free) company name `acmewidgets` and a probe
on which every request errors out, the resolver returns null. -/
theorem findCompanyWebsite_spec_witness :
    findCompanyWebsite (fun _ => none) "acmewidgets" = none :=
  (findCompanyWebsite_spec (fun _ => none) "acmewidgets" (by decide)).2 (by decide)

/-- C8 counterexample to the claim as stated: the first candidate domain
responds with HTTP status 204, which is below 400, yet the resolver does not
return it — it returns null because no probe yielded exactly 200. -/
theorem findCompanyWebsite_counterexample :
    findCompanyWebsite (fun d => if d = "https://acmewidgets.com" then some 204 else none) "acmewidgets" = none ∧
    (fun d => if d = "https://acmewidgets.com" then some 204 else none) "https://acmewidgets.com" = some 204 ∧
    (204 : Nat) < 400 ∧
    (possibleDomains "acmewidgets").head? = some "https://acmewidgets.com" := by
  refine ⟨by decide, by decide, by decide, by decide⟩

end SalesMcp

namespace SalesMcp

/-! ## C5: placeholder contacts when nothing was extractable -/

/-- C5: if contact extraction completes without an exception but the list
after prioritization and scoring is empty, `findKeyContacts` returns exactly
the two placeholder contacts: a critical-priority `CEO/Founder` with quality
score 40 and a high-priority `CTO/VP Engineering` with quality score 35,
both with null email and `recommendedForOutreach = false`. -/
theorem findKeyContacts_placeholders (contacts : List Contact) (websiteUrl : Option String) (now : Int)
    (h : scoreAndVerifyContacts (prioritizeContacts contacts) websiteUrl now = []) :
    finalizeContacts contacts websiteUrl now = [researchNeededCEO, researchNeededCTO] ∧
    researchNeededCEO.contact.name = "CEO/Founder" ∧
    researchNeededCEO.contact.priority = "critical" ∧
    researchNeededCEO.qualityScore.score = 40 ∧
    researchNeededCEO.contact.email = none ∧
    researchNeededCEO.recommendedForOutreach = false ∧
    researchNeededCTO.contact.name = "CTO/VP Engineering" ∧
    researchNeededCTO.contact.priority = "high" ∧
    researchNeededCTO.qualityScore.score = 35 ∧
    researchNeededCTO.contact.email = none ∧
    researchNeededCTO.recommendedForOutreach = false := by
  refine ⟨?_, rfl, rfl, rfl, rfl, rfl, rfl, rfl, rfl, rfl, rfl⟩
  unfold finalizeContacts
  rw [h]
  rfl

/-- C5 witness: with no extracted contacts at all, the scored list is empty
and the two placeholders are produced. -/
theorem findKeyContacts_placeholders_witness :
    finalizeContacts [] none 0 = [researchNeededCEO, researchNeededCTO] :=
  (findKeyContacts_placeholders [] none 0 (by decide)).1

end SalesMcp

namespace SalesMcp

/-! ## C2: fit scorer bounds -/

/-- An association-table lookup `((l.find? p).map Prod.snd).getD dflt` is
bounded by any bound that covers the default and every table value. -/
theorem find_snd_getD_le (l : List (String × Nat)) (p : String × Nat → Bool)
    (dflt bound : Nat) (hd : dflt ≤ bound) (hl : ∀ q ∈ l, q.2 ≤ bound) :
    ((l.find? p).map Prod.snd).getD dflt ≤ bound := by
  rcases h : l.find? p with _ | q
  · simpa using hd
  · simpa using hl q (List.mem_of_find?_eq_some h)

/-- The recognition boost is a value of the `majorPlatforms` table or 0. -/
theorem recognitionBoost_le (wa : WebsiteAnalysis) : recognitionBoost wa ≤ 20 := by
  unfold recognitionBoost
  exact find_snd_getD_le _ _ _ _ (by decide) (by decide)

/-- The platform-type contribution, when present, is a value of the
`platformTypeScores` table or the default 5. -/
theorem platformTypeScore_le (wa : WebsiteAnalysis) : (platformTypeScore wa).getD 0 ≤ 30 := by
  unfold platformTypeScore
  rcases wa.platform_type with _ | pt
  · simp
  · simpa using find_snd_getD_le _ _ _ _ (by decide) (by decide)

set_option maxRecDepth 40000 in
/-- On the reachable score range 0..120, the IEEE-754 double evaluation of
`Math.round((score / 120) * 100)` coincides with exact rational half-up
rounding everywhere except at score 69, where the double product falls just
below the 57.5 tie and the program yields 57 instead of 58. -/
theorem jsFloatPercent_eq_exact :
    ∀ s : Nat, s ≤ 120 → s ≠ 69 → jsFloatPercent s = jsRoundDiv (s * 100) 120 := by
  decide

/-- C2 (amended): for every analyzer output (including the empty object),
the fit scorer returns a result with `0 ≤ total_score ≤ 120` (the lower
bound is inherent in the ℕ embedding), each breakdown factor within its
documented cap (`platform_recognition ≤ 20`, `platform_type ≤ 30` when
present, `business_indicators ≤ 25`, `technical_fit ≤ 20`,
`pricing_model ≤ 15`, `growth_indicators ≤ 10`), and `total_score` equal to
the sum of the factor contributions (a missing `platform_type` contributes
0).  `percentage` is `Math.round((total_score / 120) * 100)` as evaluated in
IEEE-754 doubles, which equals the exact rounding
`round(total_score / 120 * 100)` for every total score except 69 (where the
program yields 57, one below the exact 58). -/
theorem scoreCompanyFit_bounds (wa : WebsiteAnalysis) :
    (scoreCompanyFit wa).total_score ≤ 120 ∧
    (scoreCompanyFit wa).breakdown.platform_recognition ≤ 20 ∧
    ((scoreCompanyFit wa).breakdown.platform_type.getD 0 ≤ 30) ∧
    (scoreCompanyFit wa).breakdown.business_indicators ≤ 25 ∧
    (scoreCompanyFit wa).breakdown.technical_fit ≤ 20 ∧
    (scoreCompanyFit wa).breakdown.pricing_model ≤ 15 ∧
    (scoreCompanyFit wa).breakdown.growth_indicators ≤ 10 ∧
    (scoreCompanyFit wa).total_score =
      (scoreCompanyFit wa).breakdown.platform_recognition +
      (scoreCompanyFit wa).breakdown.platform_type.getD 0 +
      (scoreCompanyFit wa).breakdown.business_indicators +
      (scoreCompanyFit wa).breakdown.technical_fit +
      (scoreCompanyFit wa).breakdown.pricing_model +
      (scoreCompanyFit wa).breakdown.growth_indicators ∧
    (scoreCompanyFit wa).percentage = jsFloatPercent ((scoreCompanyFit wa).total_score) ∧
    ((scoreCompanyFit wa).total_score ≠ 69 →
      (scoreCompanyFit wa).percentage = jsRoundDiv ((scoreCompanyFit wa).total_score * 100) 120) ∧
    (scoreCompanyFit wa).max_possible = 120 := by
  have h1 := recognitionBoost_le wa
  have h2 := platformTypeScore_le wa
  have h3 : min (businessIndicatorScore wa) 25 ≤ 25 := Nat.min_le_right _ _
  have h4 : min (technicalFitScore wa) 20 ≤ 20 := Nat.min_le_right _ _
  have h5 : min (pricingModelScore wa) 15 ≤ 15 := Nat.min_le_right _ _
  have h6 : growthIndicatorScore wa ≤ 10 := by
    unfold growthIndicatorScore
    rcases wa.business_indicators with _ | bi
    · simp
    · exact Nat.min_le_right (bi.growth_indicators.length * 3) 10
  have h120 : (scoreCompanyFit wa).total_score ≤ 120 := by
    show recognitionBoost wa + (platformTypeScore wa).getD 0 + _ + _ + _ + _ ≤ 120
    omega
  refine ⟨h120, h1, h2, h3, h4, h5, h6, rfl, rfl, ?_, rfl⟩
  intro hne
  exact jsFloatPercent_eq_exact _ h120 hne

/-- Reachable analyzer output with total score 69: platform type `no-code`
(30 points), funding and careers indicators (15 + 10 = 25 points, three
growth tags `funding`/`hiring`/`press` for 9 points), and enterprise
language only (5 technical points).  All flags are consistent with
`extractBusinessIndicators` (each set flag appends its tag). -/
def analysis69 : WebsiteAnalysis :=
  { title := none
  , description := none
  , website := none
  , platform_type := some { type := "no-code", confidence := 3, keywords_found := 3 }
  , business_indicators := some
      { has_customers := false
      , customer_count := none
      , has_funding := true
      , has_team_page := false
      , has_careers := true
      , has_press := true
      , has_case_studies := false
      , growth_indicators := ["funding", "hiring", "press"] }
  , pricing_info := none
  , content_analysis := some
      { has_api := false, has_developers := false, has_enterprise := true, has_pricing := false } }

/-- C2 counterexample to the claim as stated: at the reachable total score
69 the program computes percentage 57 — the double value of `(69/120)*100`
is strictly below 57.5 — while the exact rounding
`round(total_score / 120 * 100)` asserted by the claim is 58. -/
theorem scoreCompanyFit_percentage_counterexample :
    (scoreCompanyFit analysis69).total_score = 69 ∧
    (scoreCompanyFit analysis69).percentage = 57 ∧
    jsRoundDiv ((scoreCompanyFit analysis69).total_score * 100) 120 = 58 := by
  decide

/-- C2 witness: for the empty analyzer output the total score is 0, so the
implication hypothesis holds and the percentage agrees with exact rounding
(both are 0). -/
theorem scoreCompanyFit_bounds_witness :
    (scoreCompanyFit
      { title := none, description := none, website := none, platform_type := none
      , business_indicators := none, pricing_info := none, content_analysis := none }).percentage =
    jsRoundDiv ((scoreCompanyFit
      { title := none, description := none, website := none, platform_type := none
      , business_indicators := none, pricing_info := none, content_analysis := none }).total_score * 100) 120 :=
  (scoreCompanyFit_bounds
    { title := none, description := none, website := none, platform_type := none
    , business_indicators := none, pricing_info := none, content_analysis := none }).2.2.2.2.2.2.2.2.2.1
    (by decide)

end SalesMcp

namespace SalesMcp

/-! ## C3 and C10: scoreAndVerifyContacts -/

/-- Every element of the scored list is the augmentation of some input
contact. -/
theorem mem_scoreAndVerifyContacts (contacts : List Contact) (w : Option String) (now : Int)
    (sc : ScoredContact) (hsc : sc ∈ scoreAndVerifyContacts contacts w now) :
    ∃ c ∈ contacts, sc = augmentContact w now c := by
  have hmem : sc ∈ contacts.map (augmentContact w now) :=
    (List.perm_insertionSort _ _).mem_iff.mp hsc
  rcases List.mem_map.mp hmem with ⟨c, hc, rfl⟩
  exact ⟨c, hc, rfl⟩

/-- C3: for every contact in the output of `scoreAndVerifyContacts`,
`recommendedForOutreach` is true iff the contact's quality percentage is at
least 60 and its email passes the format-validation regex; in particular it
is never true for a contact whose email is null. -/
theorem scoreAndVerifyContacts_outreach (contacts : List Contact) (w : Option String) (now : Int) :
    ∀ sc ∈ scoreAndVerifyContacts contacts w now,
      (sc.recommendedForOutreach = true ↔
        (60 ≤ sc.qualityScore.percentage ∧ validateEmailFormat sc.contact.email = true)) ∧
      (sc.contact.email = none → sc.recommendedForOutreach = false) := by
  intro sc hsc
  rcases mem_scoreAndVerifyContacts contacts w now sc hsc with ⟨c, _, rfl⟩
  constructor
  · simp [augmentContact, Bool.and_eq_true, decide_eq_true_eq]
  · intro hnone
    have : validateEmailFormat c.email = false := by
      have hc : c.email = none := hnone
      simp [validateEmailFormat, hc, jsTruthy]
    simp [augmentContact, this]

/-- Concrete contact used to exercise the contact-scoring theorems: a
verified team-page manager with a matching-domain email, LinkedIn profile
and fresh extraction timestamp (quality score 65). -/
def bobManager : Contact :=
  { name := "Bob Jones"
  , title := some "Manager"
  , email := some "bob@acme.com"
  , linkedin := some "https://linkedin.com/in/bob"
  , source := "website_team_page"
  , priority := "medium"
  , verified := true
  , note := none
  , extractedAt := some 0 }

/-- C3 witness: for the concrete contact `bobManager` (quality percentage 65,
valid email), the characterization yields `recommendedForOutreach = true`. -/
theorem scoreAndVerifyContacts_outreach_witness :
    (augmentContact (some "https://acme.com") 0 bobManager).recommendedForOutreach = true := by
  have h := scoreAndVerifyContacts_outreach [bobManager] (some "https://acme.com") 0
    (augmentContact (some "https://acme.com") 0 bobManager) (by decide)
  exact h.1.mpr (by decide)

/-- C10: `scoreAndVerifyContacts` returns a list of exactly the input's
length whose elements are a permutation of the (augmented) inputs, and every
output contact agrees with its input contact on all fields except the four
added ones (`qualityScore`, `emailValidation`, `recommendedForOutreach`,
`outreachRisk`), which are the documented functions of the input. -/
theorem scoreAndVerifyContacts_frame (contacts : List Contact) (w : Option String) (now : Int) :
    ((scoreAndVerifyContacts contacts w now).map ScoredContact.contact).Perm contacts ∧
    (scoreAndVerifyContacts contacts w now).length = contacts.length ∧
    ∀ sc ∈ scoreAndVerifyContacts contacts w now, sc = augmentContact w now sc.contact := by
  have hperm : (scoreAndVerifyContacts contacts w now).Perm (contacts.map (augmentContact w now)) :=
    List.perm_insertionSort _ _
  refine ⟨?_, ?_, ?_⟩
  · have h1 := hperm.map ScoredContact.contact
    have h2 : (contacts.map (augmentContact w now)).map ScoredContact.contact = contacts := by
      rw [List.map_map]
      exact List.map_id contacts
    rwa [h2] at h1
  · rw [hperm.length_eq, List.length_map]
  · intro sc hsc
    rcases mem_scoreAndVerifyContacts contacts w now sc hsc with ⟨c, _, rfl⟩
    rfl

/-- C10 witness: applied to the singleton list `[bobManager]`, whose single
output element is its own augmentation. -/
theorem scoreAndVerifyContacts_frame_witness :
    augmentContact (some "https://acme.com") 0 bobManager =
      augmentContact (some "https://acme.com") 0
        ((augmentContact (some "https://acme.com") 0 bobManager).contact) :=
  (scoreAndVerifyContacts_frame [bobManager] (some "https://acme.com") 0).2.2
    (augmentContact (some "https://acme.com") 0 bobManager) (by decide)

end SalesMcp

namespace SalesMcp

/-! ## C4: contact list length and ordering -/

/-- Relation of ascending title-priority rank. -/
def rankLe (a b : Contact) : Prop :=
  calculateContactPriorityScore a.title ≤ calculateContactPriorityScore b.title

/-- Relation of descending raw quality score (the order produced by
`scoreAndVerifyContacts`). -/
def qualityGe (a b : ScoredContact) : Prop :=
  b.qualityScore.score ≤ a.qualityScore.score

/-- C4 (amended): every contact list returned by `findKeyContacts` has at
most 5 entries; the intermediate `prioritizeContacts` list is sorted
ascending by the fixed title-priority rank (ceo=1 … unknown=9) and truncated
to 5; but the final returned list is re-sorted by `scoreAndVerifyContacts`
descending by contact quality score, an order that need not coincide with
ascending title rank. -/
theorem findKeyContacts_length_and_order (contacts : List Contact) (w : Option String) (now : Int) :
    (finalizeContacts contacts w now).length ≤ 5 ∧
    (prioritizeContacts contacts).Sorted rankLe ∧
    (scoreAndVerifyContacts (prioritizeContacts contacts) w now).Sorted qualityGe := by
  letI : DecidableRel rankLe := fun a b => Nat.decLe _ _
  letI : DecidableRel qualityGe := fun a b => Nat.decLe _ _
  letI : IsTotal Contact rankLe := ⟨fun a b => Nat.le_total _ _⟩
  letI : IsTrans Contact rankLe := ⟨fun _ _ _ => Nat.le_trans⟩
  letI : IsTotal ScoredContact qualityGe := ⟨fun a b => (Nat.le_total _ _).symm⟩
  letI : IsTrans ScoredContact qualityGe := ⟨fun _ _ _ hab hbc => Nat.le_trans hbc hab⟩
  have hprio : (prioritizeContacts contacts).Sorted rankLe := by
    unfold prioritizeContacts
    exact (List.sorted_insertionSort rankLe contacts).sublist (List.take_sublist 5 _)
  have hplen : (prioritizeContacts contacts).length ≤ 5 := by
    unfold prioritizeContacts
    exact (List.length_take 5 _).le.trans (Nat.min_le_left _ _)
  have hslen : (scoreAndVerifyContacts (prioritizeContacts contacts) w now).length =
      (prioritizeContacts contacts).length := by
    unfold scoreAndVerifyContacts
    rw [(List.perm_insertionSort _ _).length_eq, List.length_map]
  refine ⟨?_, hprio, ?_⟩
  · simp only [finalizeContacts]
    split_ifs with h
    · rcases Bool.and_eq_true_iff.mp h with ⟨-, h2⟩
      have : (scoreAndVerifyContacts (prioritizeContacts contacts) w now).length = 0 :=
        of_decide_eq_true h2
      simp [this, List.length_append]
    · omega
  · unfold scoreAndVerifyContacts
    exact List.sorted_insertionSort qualityGe _

/-- Ascending title-priority rank on scored contacts (the order asserted by
the claim for the final list). -/
def rankLeScored (a b : ScoredContact) : Prop :=
  calculateContactPriorityScore a.contact.title ≤ calculateContactPriorityScore b.contact.title

/-- Concrete contact used in the C4 counterexample: a bare CEO contact from
text extraction (quality score 50, title rank 1). -/
def aliceCEO : Contact :=
  { name := "Alice Smith"
  , title := some "CEO"
  , email := none
  , linkedin := none
  , source := "text_extraction"
  , priority := "critical"
  , verified := false
  , note := none
  , extractedAt := none }

/-- C4 counterexample to the claim as stated: with a bare CEO contact
(rank 1, quality 50) and a rich manager contact (rank 8, quality 65), the
final list of the extraction stage is ordered by descending quality score —
the manager (rank 8) precedes the CEO (rank 1) — so it is not sorted
ascending by title-priority rank. -/
theorem findKeyContacts_order_counterexample :
    ¬ (finalizeContacts [aliceCEO, bobManager] (some "https://acme.com") 0).Sorted rankLeScored := by
  intro hs
  have hmap : (finalizeContacts [aliceCEO, bobManager] (some "https://acme.com") 0).map
      (fun sc => calculateContactPriorityScore sc.contact.title) = [8, 1] := by decide
  have h2 : List.Pairwise (fun x y : Nat => x ≤ y)
      ((finalizeContacts [aliceCEO, bobManager] (some "https://acme.com") 0).map
        (fun sc => calculateContactPriorityScore sc.contact.title)) :=
    List.pairwise_map.mpr hs
  rw [hmap] at h2
  have := (List.pairwise_cons.mp h2).1 1 (List.mem_singleton.mpr rfl)
  omega

end SalesMcp

namespace SalesMcp

/-! ## C9: batch research -/

/-- Relation of descending batch sort key (`scoring?.total_score || 0`). -/
def batchGe (score : α → Nat) (a b : BatchEntry α) : Prop :=
  entryScore score b ≤ entryScore score a

/-- The `input` of a per-company step is the company itself. -/
theorem entryInput_researchStep (research : Company → Except String α) (c : Company) :
    entryInput (researchStep research c) = c := by
  unfold researchStep
  rcases research c with r | e <;> rfl

/-- With positive chunk size and enough fuel, the chunked map is the plain
map: `Promise.all` preserves order and the chunk results are concatenated in
order, so chunking never drops, duplicates, or reorders companies. -/
theorem processChunksAux_eq_map (research : Company → Except String α) (mc : Nat) (hmc : 0 < mc) :
    ∀ (fuel : Nat) (l : List Company), l.length ≤ fuel →
      processChunksAux research mc fuel l = l.map (researchStep research) := by
  intro fuel
  induction fuel with
  | zero =>
    intro l hl
    have : l = [] := List.eq_nil_of_length_eq_zero (Nat.le_zero.mp hl)
    subst this
    rfl
  | succ f ih =>
    intro l hl
    match l with
    | [] => rfl
    | c :: rest =>
      have hdrop : ((c :: rest).drop mc).length ≤ f := by
        rw [List.length_drop]
        have : (c :: rest).length ≤ f + 1 := hl
        have h1 : 1 ≤ (c :: rest).length := by simp
        omega
      show ((c :: rest).take mc).map (researchStep research) ++
          processChunksAux research mc f ((c :: rest).drop mc) = _
      rw [ih _ hdrop, ← List.map_append, List.take_append_drop]

/-- C9 (amended): `batchResearch` converts each per-company failure into an
error record without aborting the remaining companies — the result is a
permutation of the per-company outcome records, one per input company — and
is sorted descending by `total_score` with errored entries sorting as score
0.  (Errored entries are therefore not necessarily last: a successful
research whose total score is 0 carries the same sort key, and the stable
sort keeps such entries in input order.) -/
theorem batchResearch_spec (research : Company → Except String α) (score : α → Nat)
    (mc : Nat) (companies : List Company) (hmc : 0 < mc) :
    (batchResearch research score mc companies).Perm (companies.map (researchStep research)) ∧
    ((batchResearch research score mc companies).map entryInput).Perm companies ∧
    (batchResearch research score mc companies).Sorted (batchGe score) := by
  letI : DecidableRel (batchGe score) := fun a b => Nat.decLe _ _
  letI : IsTotal (BatchEntry α) (batchGe score) := ⟨fun a b => (Nat.le_total _ _).symm⟩
  letI : IsTrans (BatchEntry α) (batchGe score) := ⟨fun _ _ _ hab hbc => Nat.le_trans hbc hab⟩
  have hperm : (batchResearch research score mc companies).Perm
      (companies.map (researchStep research)) := by
    unfold batchResearch
    rw [processChunksAux_eq_map research mc hmc companies.length companies (Nat.le_refl _)]
    exact List.perm_insertionSort _ _
  refine ⟨hperm, ?_, ?_⟩
  · have h1 := hperm.map entryInput
    have h2 : (companies.map (researchStep research)).map entryInput = companies := by
      rw [List.map_map]
      calc companies.map (entryInput ∘ researchStep research)
          = companies.map id := List.map_congr_left (fun c _ => entryInput_researchStep research c)
        _ = companies := List.map_id companies
    rwa [h2] at h1
  · unfold batchResearch
    exact List.sorted_insertionSort _ _

/-- C9 witness: a singleton batch with chunk size 3 maps back to its input
list. -/
theorem batchResearch_spec_witness :
    ((batchResearch (fun _ => Except.ok 1) id 3 [{ name := "Gamma", website := none }]).map
      entryInput).Perm [{ name := "Gamma", website := none }] :=
  (batchResearch_spec (fun _ => Except.ok 1) id 3 [{ name := "Gamma", website := none }]
    (by decide)).2.1

/-- Companies used in the C9 counterexample. -/
def companyAlpha : Company := { name := "Alpha", website := none }

/-- Second company of the C9 counterexample. -/
def companyBeta : Company := { name := "Beta", website := none }

/-- C9 counterexample to the claim as stated: when `Alpha` fails and `Beta`
succeeds with `total_score = 0`, both sort keys are 0 and the stable sort
keeps input order, so the errored entry is first and a successful entry is
last — errored entries are not placed last. -/
theorem batchResearch_counterexample :
    batchResearch (fun c => if c.name = "Alpha" then Except.error "network failure" else Except.ok 0)
        id 3 [companyAlpha, companyBeta] =
      [BatchEntry.failure companyAlpha "network failure", BatchEntry.success companyBeta 0] := by
  decide

end SalesMcp

namespace SalesMcp

/-! ## C7: platform type classification -/

/-- Characterization of the `detectPlatformType` accumulator loop: either no
category's score strictly exceeds the accumulator (which is then returned
unchanged), or the result is the table entry at some index `i` — the first
entry attaining the maximal score — so that every entry scores at most the
winner and every entry before index `i` scores strictly less. -/
theorem detectFold_characterization (allText : String) (l : List (String × List String)) :
    ∀ acc : String × Nat,
      (l.foldl (detectStep allText) acc = acc ∧
        ∀ p ∈ l, keywordScore allText p.2 ≤ acc.2) ∨
      (∃ i p, l.get? i = some p ∧
        l.foldl (detectStep allText) acc = (p.1, keywordScore allText p.2) ∧
        acc.2 < keywordScore allText p.2 ∧
        (∀ q ∈ l, keywordScore allText q.2 ≤ keywordScore allText p.2) ∧
        (∀ j q, j < i → l.get? j = some q →
          keywordScore allText q.2 < keywordScore allText p.2)) := by
  induction l with
  | nil =>
    intro acc
    left
    exact ⟨rfl, by simp⟩
  | cons p t ih =>
    intro acc
    rw [List.foldl_cons]
    by_cases hc : acc.2 < keywordScore allText p.2
    · have hstep : detectStep allText acc p = (p.1, keywordScore allText p.2) := by
        simp [detectStep, hc]
      rw [hstep]
      rcases ih (p.1, keywordScore allText p.2) with ⟨heq, hall⟩ | ⟨i, q, hget, heq, hgt, hall, hprev⟩
      · right
        refine ⟨0, p, rfl, ?_, hc, ?_, ?_⟩
        · rw [heq]
        · intro q hq
          rcases List.mem_cons.mp hq with rfl | hq2
          · exact Nat.le_refl _
          · exact hall q hq2
        · intro j q hj _
          omega
      · right
        have hgt2 : keywordScore allText p.2 < keywordScore allText q.2 := hgt
        refine ⟨i + 1, q, by simpa using hget, heq, Nat.lt_trans hc hgt2, ?_, ?_⟩
        · intro r hr
          rcases List.mem_cons.mp hr with rfl | hr2
          · exact Nat.le_of_lt hgt2
          · exact hall r hr2
        · intro j r hj hget2
          match j with
          | 0 =>
            have hrp : p = r := by simpa using hget2
            subst hrp
            exact hgt2
          | j + 1 =>
            exact hprev j r (by omega) (by simpa using hget2)
    · have hstep : detectStep allText acc p = acc := by
        simp [detectStep, hc]
      rw [hstep]
      rcases ih acc with ⟨heq, hall⟩ | ⟨i, q, hget, heq, hgt, hall, hprev⟩
      · left
        refine ⟨heq, ?_⟩
        intro q hq
        rcases List.mem_cons.mp hq with rfl | hq2
        · omega
        · exact hall q hq2
      · right
        have hgt2 : acc.2 < keywordScore allText q.2 := hgt
        refine ⟨i + 1, q, by simpa using hget, heq, hgt2, ?_, ?_⟩
        · intro r hr
          rcases List.mem_cons.mp hr with rfl | hr2
          · omega
          · exact hall r hr2
        · intro j r hj hget2
          match j with
          | 0 =>
            have hrp : p = r := by simpa using hget2
            subst hrp
            omega
          | j + 1 =>
            exact hprev j r (by omega) (by simpa using hget2)

/-- C7: platform-type classification counts case-insensitive keyword
occurrences per category; every category's count is at most the returned
confidence; if every count is zero the type is `unknown` (with confidence
0); and for a positive confidence the returned type is the category at the
first table index attaining the maximal count — every strictly earlier
category counts strictly less, so ties go to the earlier category — with
the confidence equal to the winning category's count. -/
theorem detectPlatformType_spec (content title description : String) :
    (∀ p ∈ platformKeywordTable,
      keywordScore (platformAllText content title description) p.2 ≤
        (detectPlatformType content title description).confidence) ∧
    ((detectPlatformType content title description).confidence = 0 →
      (detectPlatformType content title description).type = "unknown") ∧
    (0 < (detectPlatformType content title description).confidence →
      ∃ i p, platformKeywordTable.get? i = some p ∧
        (detectPlatformType content title description).type = p.1 ∧
        (detectPlatformType content title description).confidence =
          keywordScore (platformAllText content title description) p.2 ∧
        ∀ j q, j < i → platformKeywordTable.get? j = some q →
          keywordScore (platformAllText content title description) q.2 <
            (detectPlatformType content title description).confidence) := by
  have hconf : (detectPlatformType content title description).confidence =
      (platformKeywordTable.foldl (detectStep (platformAllText content title description))
        ("unknown", 0)).2 := rfl
  have htype : (detectPlatformType content title description).type =
      (platformKeywordTable.foldl (detectStep (platformAllText content title description))
        ("unknown", 0)).1 := rfl
  rcases detectFold_characterization (platformAllText content title description)
      platformKeywordTable ("unknown", 0) with
    ⟨heq, hall⟩ | ⟨i, p, hget, heq, hgt, hall, hprev⟩
  · refine ⟨?_, ?_, ?_⟩
    · intro q hq
      rw [hconf, heq]
      exact hall q hq
    · intro _
      rw [htype, heq]
    · intro hpos
      rw [hconf, heq] at hpos
      exact absurd hpos (lt_irrefl 0)
  · have hgt2 : 0 < keywordScore (platformAllText content title description) p.2 := hgt
    refine ⟨?_, ?_, ?_⟩
    · intro q hq
      rw [hconf, heq]
      exact hall q hq
    · intro h0
      rw [hconf, heq] at h0
      have h0 : keywordScore (platformAllText content title description) p.2 = 0 := h0
      omega
    · intro _
      refine ⟨i, p, hget, ?_, ?_, ?_⟩
      · rw [htype, heq]
      · rw [hconf, heq]
      · intro j q hj hg
        rw [hconf, heq]
        exact hprev j q hj hg

/-- C7 witness: on empty text every category counts zero, so the classifier
returns type `unknown`. -/
theorem detectPlatformType_spec_witness :
    (detectPlatformType "" "" "").type = "unknown" :=
  (detectPlatformType_spec "" "" "").2.1 (by decide)

end SalesMcp
